import Mathlib

/-
  Shallow embedding of the "critical" colony-management game
  (src/types.ts, src/unnamed/part_004 (constants), src/services/engine.ts,
  src/services/network.ts, src/unnamed/part_000 (App.tsx), src/unnamed/part_003
  (VirtualServer)).

  Numbers: all JavaScript numeric game quantities are modelled as rationals,
  so that the decimal constants of the source (0.05, 0.1, ...) are exact.
-/

namespace Critical

/-- RoleType enum from src/types.ts. -/
inductive RoleType where
  | COMMANDER
  | ENGINEER
  | BIO_SEC
  | COMMS
  | SECURITY
  | LOGISTICS
deriving DecidableEq, Repr

/-- GamePhase enum from src/types.ts. -/
inductive GamePhase where
  | LOBBY
  | TRANSITION
  | PLAYING
  | GAME_OVER
  | VICTORY
deriving DecidableEq, Repr

/-- GameEvent severity literal union from src/types.ts. -/
inductive Severity where
  | LOW
  | MEDIUM
  | CRITICAL
deriving DecidableEq, Repr

/-- Action targetType literal union from src/types.ts. -/
inductive TargetType where
  | GLOBAL
  | SECTOR
deriving DecidableEq, Repr

/-- SectorState interface from src/types.ts.  The sector `type` is one of six
string literals in the source; it is kept as a string here. -/
structure SectorState where
  id : String
  name : String
  type : String
  structuralIntegrity : ℚ
  hazardLevel : ℚ
  activeEventId : Option String
deriving DecidableEq, Repr

/-- SystemState interface from src/types.ts. -/
structure SystemState where
  globalPanic : ℚ
  globalPower : ℚ
  globalNetwork : ℚ
  sectors : List SectorState
deriving DecidableEq, Repr

/-- GameEvent interface from src/types.ts. -/
structure GameEvent where
  id : String
  title : String
  description : String
  severity : Severity
  targetSectorId : String
  timestamp : Int
deriving DecidableEq, Repr

/-- The optional cost record of an Action (src/types.ts). -/
structure ActionCost where
  resource : String
  amount : ℚ
deriving DecidableEq, Repr

/-- Action interface from src/types.ts. -/
structure Action where
  id : String
  label : String
  description : String
  cooldown : ℚ
  role : RoleType
  targetType : TargetType
  cost : Option ActionCost
deriving DecidableEq, Repr

/-- Player interface from src/types.ts (`isBot` is optional there, defaulting
to a falsy value, so it is a plain Bool here). -/
structure Player where
  id : String
  name : String
  role : Option RoleType
  isHost : Bool
  isBot : Bool
deriving DecidableEq, Repr

/-! ## Engine: src/services/engine.ts -/

/-- One iteration of the forEach loop in calculateSystemDecay
(src/services/engine.ts lines 12-23), processing the remaining sectors with
the accumulated globalPower and globalPanic.  Within an iteration the
`structuralIntegrity < 50` test reads the sector before its own mutation,
exactly as in the source. -/
def decayGo (power panic : ℚ) : List SectorState → ℚ × ℚ × List SectorState
  | [] => (power, panic, [])
  | sector :: rest =>
    let power1 := if sector.structuralIntegrity < 50 then max 0 (power - 0.02) else power
    let panic1 := if sector.hazardLevel > 0 then min 100 (panic + 0.05) else panic
    let sector1 :=
      if sector.hazardLevel > 0 then
        { sector with structuralIntegrity := max 0 (sector.structuralIntegrity - 0.1) }
      else sector
    let r := decayGo power1 panic1 rest
    (r.1, r.2.1, sector1 :: r.2.2)

/-- calculateSystemDecay from src/services/engine.ts lines 4-26.
The JSON deep copy is the identity on the value level. -/
def calculateSystemDecay (current : SystemState) : SystemState :=
  let power0 := max 0 (current.globalPower - 0.05)
  let panic0 := min 100 (current.globalPanic + 0.1)
  let r := decayGo power0 panic0 current.sectors
  { current with globalPower := r.1, globalPanic := r.2.1, sectors := r.2.2 }

/-- Update of the target sector inside applyEventImpact
(src/services/engine.ts lines 56-64). -/
def impactSector (event : GameEvent) (sector : SectorState) : SectorState :=
  if event.severity = Severity.CRITICAL then
    { sector with
        activeEventId := some event.id,
        structuralIntegrity := sector.structuralIntegrity - 20,
        hazardLevel := sector.hazardLevel + 30 }
  else
    { sector with
        activeEventId := some event.id,
        structuralIntegrity := sector.structuralIntegrity - 10,
        hazardLevel := sector.hazardLevel + 15 }

/-- Mutation of the first list element satisfying a predicate; models
`array.find(...)` followed by in-place mutation of the found element. -/
def updateFirst (pred : SectorState → Bool) (f : SectorState → SectorState) :
    List SectorState → List SectorState
  | [] => []
  | s :: rest => if pred s then f s :: rest else s :: updateFirst pred f rest

/-- applyEventImpact from src/services/engine.ts lines 52-71: if the target
sector exists it is mutated and globalPanic is raised by 5 (unclamped);
otherwise the state is returned unchanged. -/
def applyEventImpact (state : SystemState) (event : GameEvent) : SystemState :=
  if state.sectors.any (fun s => s.id == event.targetSectorId) then
    { state with
        sectors := updateFirst (fun s => s.id == event.targetSectorId)
          (impactSector event) state.sectors,
        globalPanic := state.globalPanic + 5 }
  else state

/-- The cost-payment block of applyAction (src/services/engine.ts lines 77-79):
only a cost whose resource is the string "globalPower" is deducted. -/
def payCost (state : SystemState) (action : Action) : SystemState :=
  match action.cost with
  | some c =>
      if c.resource = "globalPower" then
        { state with globalPower := state.globalPower - c.amount }
      else state
  | none => state

/-- The GLOBAL branch of applyAction (src/services/engine.ts lines 82-91):
a sequence of id tests, each mutating the state. -/
def applyGlobalEffects (action : Action) (state : SystemState) : SystemState :=
  let s1 := if action.id = "cmd_lockdown" then
      { state with globalPanic := state.globalPanic - 25 } else state
  let s2 := if action.id = "cmd_rally" then
      { s1 with sectors := s1.sectors.map (fun s =>
          { s with structuralIntegrity := min 100 (s.structuralIntegrity + 5) }) } else s1
  let s3 := if action.id = "eng_overcharge" then
      { s2 with globalPower := s2.globalPower + 25 } else s2
  let s4 := if action.id = "com_broadcast" then
      { s3 with globalPanic := s3.globalPanic - 10 } else s3
  let s5 := if action.id = "com_reboot" then
      { s4 with globalNetwork := 100 } else s4
  let s6 := if action.id = "log_supply" then
      { s5 with globalPower := s5.globalPower + 5 } else s5
  s6

/-- The per-sector mutations of the SECTOR branch of applyAction
(src/services/engine.ts lines 95-105). -/
def sectorEffect (action : Action) (sector : SectorState) : SectorState :=
  let s1 := if action.id = "eng_reinforce" then
      { sector with structuralIntegrity := min 100 (sector.structuralIntegrity + 25) }
    else sector
  let s2 := if action.id = "bio_cleanse" then
      { s1 with hazardLevel := max 0 (s1.hazardLevel - 40) } else s1
  let s3 := if action.id = "bio_quarantine" then
      { s2 with hazardLevel := max 0 (s2.hazardLevel - 10) } else s2
  let s4 := if action.id = "log_reroute" then
      { s3 with
          structuralIntegrity := s3.structuralIntegrity + 5,
          hazardLevel := max 0 (s3.hazardLevel - 5) } else s3
  s4

/-- The globalPanic side effects of the SECTOR branch
(bio_quarantine raises panic by 5, sec_suppress lowers it by 5). -/
def sectorPanicDelta (action : Action) : ℚ :=
  if action.id = "bio_quarantine" then 5
  else if action.id = "sec_suppress" then -5
  else 0

/-- The SECTOR branch of applyAction (src/services/engine.ts lines 92-107):
mutations happen only if the target sector is found. -/
def applySectorEffects (action : Action) (targetSectorId : String)
    (state : SystemState) : SystemState :=
  if state.sectors.any (fun s => s.id == targetSectorId) then
    { state with
        sectors := updateFirst (fun s => s.id == targetSectorId)
          (sectorEffect action) state.sectors,
        globalPanic := state.globalPanic + sectorPanicDelta action }
  else state

/-- The final clamp of applyAction (src/services/engine.ts lines 110-111):
globalPanic and globalPower are forced into [0, 100]. -/
def clampPct (s : SystemState) : SystemState :=
  { s with
      globalPanic := max 0 (min 100 s.globalPanic),
      globalPower := max 0 (min 100 s.globalPower) }

/-- The effect-dispatch block of applyAction (src/services/engine.ts
lines 82-107): GLOBAL actions run the global table, SECTOR actions run the
sector table only when `targetSectorId` is truthy in the source (so a
missing target, or the empty string which is falsy in JavaScript, skips
it). -/
def applyEffects (action : Action) (targetSectorId : Option String)
    (s1 : SystemState) : SystemState :=
  match action.targetType, targetSectorId with
  | TargetType.GLOBAL, _ => applyGlobalEffects action s1
  | TargetType.SECTOR, some tid =>
      if tid = "" then s1 else applySectorEffects action tid s1
  | TargetType.SECTOR, none => s1

/-- applyAction from src/services/engine.ts lines 73-114: pay the cost,
apply the effects, then clamp globalPanic and globalPower to [0, 100]. -/
def applyAction (state : SystemState) (action : Action)
    (targetSectorId : Option String) : SystemState :=
  clampPct (applyEffects action targetSectorId (payCost state action))

/-- Result record of checkGameOver (src/services/engine.ts line 116):
`reason` is optional in the source. -/
structure GameOverStatus where
  isOver : Bool
  reason : Option String
  isVictory : Bool
deriving DecidableEq, Repr

/-- Number of sectors with non-positive structural integrity
(src/services/engine.ts line 117). -/
def destroyedSectors (state : SystemState) : Nat :=
  (state.sectors.filter (fun s => decide (s.structuralIntegrity ≤ 0))).length

/-- checkGameOver from src/services/engine.ts lines 116-124.  The source
reason strings are used verbatim (the riot reason uses an ASCII hyphen). -/
def checkGameOver (state : SystemState) : GameOverStatus :=
  if destroyedSectors state ≥ 3 then
    { isOver := true, reason := some "MULTIPLE SECTOR COLLAPSE", isVictory := false }
  else if state.globalPower ≤ 0 then
    { isOver := true, reason := some "TOTAL BLACKOUT", isVictory := false }
  else if state.globalPanic ≥ 100 then
    { isOver := true, reason := some "COLONY RIOTS - COMMAND LOST", isVictory := false }
  else
    { isOver := false, reason := none, isVictory := false }

/-! ## Constants: src/unnamed/part_004 -/

/-- ESSENTIAL role list (src/services/network.ts line 416, src/unnamed/part_003
line 77). -/
def ESSENTIAL : List RoleType :=
  [RoleType.COMMANDER, RoleType.ENGINEER, RoleType.BIO_SEC, RoleType.COMMS]

/-- SUPPORT role list (src/services/network.ts line 417, src/unnamed/part_003
line 78). -/
def SUPPORT : List RoleType := [RoleType.SECURITY, RoleType.LOGISTICS]

/-- The ACTIONS table from src/unnamed/part_004 lines 109-133.  Only
cmd_lockdown carries a cost. -/
def ACTIONS : List Action :=
  [ { id := "cmd_lockdown", label := "City Lockdown",
      description := "Reduces Panic significantly. High Power cost.",
      cooldown := 30, role := RoleType.COMMANDER, targetType := TargetType.GLOBAL,
      cost := some { resource := "globalPower", amount := 20 } },
    { id := "cmd_rally", label := "Rally Troops",
      description := "Boosts Sector Integrity slightly.",
      cooldown := 15, role := RoleType.COMMANDER, targetType := TargetType.GLOBAL,
      cost := none },
    { id := "eng_reinforce", label := "Reinforce Sector",
      description := "Repairs Structure in damaged sectors.",
      cooldown := 10, role := RoleType.ENGINEER, targetType := TargetType.SECTOR,
      cost := none },
    { id := "eng_overcharge", label := "Reactor Overcharge",
      description := "Restores Global Power. Risks damage.",
      cooldown := 20, role := RoleType.ENGINEER, targetType := TargetType.GLOBAL,
      cost := none },
    { id := "bio_cleanse", label := "Decon Sweep",
      description := "Reduces Hazard levels in sectors.",
      cooldown := 12, role := RoleType.BIO_SEC, targetType := TargetType.SECTOR,
      cost := none },
    { id := "bio_quarantine", label := "Quarantine",
      description := "Stops hazard spread but increases Panic.",
      cooldown := 18, role := RoleType.BIO_SEC, targetType := TargetType.SECTOR,
      cost := none },
    { id := "com_broadcast", label := "Calm Broadcast",
      description := "Reduces Global Panic.",
      cooldown := 10, role := RoleType.COMMS, targetType := TargetType.GLOBAL,
      cost := none },
    { id := "com_reboot", label := "Network Reboot",
      description := "Restores Global Network.",
      cooldown := 25, role := RoleType.COMMS, targetType := TargetType.GLOBAL,
      cost := none },
    { id := "sec_suppress", label := "Riot Suppression",
      description := "Forcefully lowers panic in a sector.",
      cooldown := 15, role := RoleType.SECURITY, targetType := TargetType.SECTOR,
      cost := none },
    { id := "sec_checkpoint", label := "Secure Checkpoint",
      description := "Prevents events from spreading.",
      cooldown := 20, role := RoleType.SECURITY, targetType := TargetType.SECTOR,
      cost := none },
    { id := "log_supply", label := "Supply Drop",
      description := "Instantly refreshes cooldowns for others.",
      cooldown := 45, role := RoleType.LOGISTICS, targetType := TargetType.GLOBAL,
      cost := none },
    { id := "log_reroute", label := "Energy Reroute",
      description := "Move power to specific sectors.",
      cooldown := 10, role := RoleType.LOGISTICS, targetType := TargetType.SECTOR,
      cost := none } ]

/-- The INITIAL_SYSTEM_STATE constant from src/unnamed/part_004 lines 78-95. -/
def INITIAL_SYSTEM_STATE : SystemState :=
  { globalPanic := 0, globalPower := 100, globalNetwork := 100,
    sectors :=
      [ ⟨"s1", "Core Reactor", "power", 100, 0, none⟩,
        ⟨"s2", "Med-Block Alpha", "medical", 100, 0, none⟩,
        ⟨"s3", "Comms Spire", "network", 100, 0, none⟩,
        ⟨"s4", "Habitation Ring A", "residential", 100, 0, none⟩,
        ⟨"s5", "Habitation Ring B", "residential", 100, 0, none⟩,
        ⟨"s6", "Command Center", "command", 100, 0, none⟩,
        ⟨"s7", "Industrial Zone", "industrial", 100, 0, none⟩,
        ⟨"s8", "Transit Hub", "industrial", 100, 0, none⟩,
        ⟨"s9", "Outer Airlocks", "industrial", 100, 0, none⟩ ] }

/-! ## Role assignment: MockServer.assignRoles (src/services/network.ts
lines 136-159), MockBackend.rebalanceRoles (lines 415-452) and
VirtualServer.autoAssignRoles (src/unnamed/part_003 lines 76-104) implement
the same algorithm. -/

/-- The role chosen for one unassigned player, given the set of roles taken
so far: first ESSENTIAL role not taken, else first SUPPORT role not taken,
else SECURITY. -/
def pickRole (taken : List RoleType) : RoleType :=
  match ESSENTIAL.find? (fun r => !taken.contains r) with
  | some r => r
  | none =>
      match SUPPORT.find? (fun r => !taken.contains r) with
      | some r => r
      | none => RoleType.SECURITY

/-- The initial taken-role set: the roles already held by any player
(`players.map(p => p.role).filter(r => r !== null)`). -/
def initialTaken (players : List Player) : List RoleType :=
  players.filterMap (fun p => p.role)

/-- The forEach loop of the role assignment, threading the mutable taken-role
set: players that already have a role are skipped, others receive
`pickRole` of the current set, which then grows by the assigned role. -/
def assignGo (taken : List RoleType) : List Player → List Player
  | [] => []
  | p :: rest =>
    match p.role with
    | some _ => p :: assignGo taken rest
    | none =>
        let r := pickRole taken
        { p with role := some r } :: assignGo (r :: taken) rest

/-- The shared role auto-assignment routine. -/
def autoAssignRoles (players : List Player) : List Player :=
  assignGo (initialTaken players) players

/-- Reference assignment following the spec sentence word for word, to be
compared with the code's `autoAssignRoles`: players are processed in roster
order; a player with a role keeps it; an unassigned player receives
`pickRole` of the roles *currently held by any player* — recomputed at each
step from the roster as it then stands: already-processed players carry
their new roles, pending players their original ones.  The code instead
threads one accumulated taken-set; the equivalence of the two is a
theorem. -/
def specAssignGo (processed : List Player) : List Player → List Player
  | [] => []
  | p :: rest =>
    match p.role with
    | some _ => p :: specAssignGo (processed ++ [p]) rest
    | none =>
        let r := pickRole (initialTaken (processed ++ p :: rest))
        { p with role := some r }
          :: specAssignGo (processed ++ [{ p with role := some r }]) rest

/-- Reference role assignment over a whole roster (spec wording). -/
def specAssignRoles (players : List Player) : List Player :=
  specAssignGo [] players

/-! ## VirtualServer.handleJoin (src/unnamed/part_003 lines 29-46) -/

/-- In-place name update of the first player found with the given id
(`this.players.find(...)` then `existing.name = name`). -/
def updatePlayerName (playerId newName : String) : List Player → List Player
  | [] => []
  | p :: rest =>
      if p.id = playerId then { p with name := newName } :: rest
      else p :: updatePlayerName playerId newName rest

/-- VirtualServer.handleJoin: an existing player id only gets its name
updated; otherwise the join is rejected outside the LOBBY phase or at 8+
players; a thrown Error is modelled as Except.error with the source message.
Every successful path re-runs autoAssignRoles. -/
def handleJoin (phase : GamePhase) (players : List Player)
    (playerId name : String) : Except String (List Player) :=
  if players.any (fun p => p.id == playerId) then
    Except.ok (autoAssignRoles (updatePlayerName playerId name players))
  else if phase ≠ GamePhase.LOBBY then
    Except.error "Game already in progress"
  else if players.length ≥ 8 then
    Except.error "Lobby full"
  else
    Except.ok (autoAssignRoles
      (players ++ [{ id := playerId, name := name, role := none,
                     isHost := false, isBot := false }]))

/-! ## MockBackend session store (src/services/network.ts lines 246-520) -/

/-- GameSession interface from src/types.ts; MockServer/MockBackend also
store a `lastTick` timestamp on the session. -/
structure GameSession where
  phase : GamePhase
  round : Nat
  timeRemaining : Int
  system : SystemState
  events : List GameEvent
  lobbyCode : String
  lastTick : Int
deriving DecidableEq, Repr

/-- The room record persisted by MockBackend. -/
structure Store where
  session : GameSession
  players : List Player
  lastUpdated : Int
deriving DecidableEq, Repr

/-- MockBackend.startGame (src/services/network.ts lines 371-380, identical
in shape to MockServer.startGame lines 89-98): a missing room returns false;
otherwise the phase is set to PLAYING unconditionally — there is no check of
the current phase — lastTick is stamped and roles are rebalanced. -/
def startGame (now : Int) (data : Option Store) : Bool × Option Store :=
  match data with
  | none => (false, none)
  | some d =>
      (true, some { d with
        session := { d.session with phase := GamePhase.PLAYING, lastTick := now },
        players := autoAssignRoles d.players })

/-- Lookup `ACTIONS.find(a => a.id === actionId)` (src/services/network.ts
line 387). -/
def findAction (actionId : String) : Option Action :=
  ACTIONS.find? (fun a => a.id == actionId)

/-- MockBackend.performAction (src/services/network.ts lines 382-394):
fails on a missing room, a non-PLAYING phase or an unknown action id;
otherwise applies the engine action — with whatever targetSectorId the
caller supplied, unvalidated — and reports success. -/
def performAction (data : Option Store) (actionId : String)
    (targetSectorId : Option String) : Bool × Option Store :=
  match data with
  | none => (false, none)
  | some d =>
      if d.session.phase ≠ GamePhase.PLAYING then (false, some d)
      else
        match findAction actionId with
        | none => (false, some d)
        | some actionDef =>
            (true, some { d with
              session := { d.session with
                system := applyAction d.session.system actionDef targetSectorId } })

/-! ## Host-side target resolution: processAction in src/unnamed/part_000
lines 236-262.  The source sorts the sector array with a comparator and takes
element 0; JavaScript Array.prototype.sort is stable, so element 0 of the
sorted array is the first list element attaining the extreme value. -/

/-- First sector attaining the minimum structuralIntegrity
(`sectors.sort((a,b) => a.structuralIntegrity - b.structuralIntegrity)[0]`,
a stable ascending sort, ties keeping list order). -/
def lowestIntegrityFirst : List SectorState → Option SectorState
  | [] => none
  | s :: rest =>
      some (rest.foldl (fun best c =>
        if c.structuralIntegrity < best.structuralIntegrity then c else best) s)

/-- First sector attaining the maximum hazardLevel
(`sectors.sort((a,b) => b.hazardLevel - a.hazardLevel)[0]`, a stable
descending sort, ties keeping list order). -/
def highestHazardFirst : List SectorState → Option SectorState
  | [] => none
  | s :: rest =>
      some (rest.foldl (fun best c =>
        if c.hazardLevel > best.hazardLevel then c else best) s)

/-- The targetSectorId computed by processAction (src/unnamed/part_000
lines 243-252): GLOBAL actions get none (undefined); SECTOR actions are
resolved by the acting role. -/
def resolveTargetSectorId (action : Action) (sectors : List SectorState) :
    Option String :=
  if action.targetType = TargetType.SECTOR then
    if action.role = RoleType.ENGINEER then
      (lowestIntegrityFirst sectors).map (fun s => s.id)
    else if action.role = RoleType.BIO_SEC then
      (highestHazardFirst sectors).map (fun s => s.id)
    else
      sectors.head?.map (fun s => s.id)
  else none

/-! ## Derived predicates and measures -/

/-- A state whose percentage fields all lie in [0, 100]. -/
def InRange (s : SystemState) : Prop :=
  0 ≤ s.globalPanic ∧ s.globalPanic ≤ 100
  ∧ 0 ≤ s.globalPower ∧ s.globalPower ≤ 100
  ∧ 0 ≤ s.globalNetwork ∧ s.globalNetwork ≤ 100
  ∧ ∀ sec ∈ s.sectors,
      0 ≤ sec.structuralIntegrity ∧ sec.structuralIntegrity ≤ 100
      ∧ 0 ≤ sec.hazardLevel ∧ sec.hazardLevel ≤ 100

instance (s : SystemState) : Decidable (InRange s) := by
  unfold InRange
  infer_instance

/-- The action ids that have an entry in applyAction's effect tables
(src/services/engine.ts lines 82-105): six GLOBAL ids and five SECTOR ids. -/
def effectIds : List String :=
  ["cmd_lockdown", "cmd_rally", "eng_overcharge", "com_broadcast", "com_reboot",
   "log_supply", "eng_reinforce", "bio_cleanse", "bio_quarantine", "sec_suppress",
   "log_reroute"]

/-- The amount applyAction actually deducts from globalPower for an action's
cost: the cost amount when the cost names the resource "globalPower",
otherwise nothing. -/
def costAmount (a : Action) : ℚ :=
  match a.cost with
  | some c => if c.resource = "globalPower" then c.amount else 0
  | none => 0

/-! ## Helper lemmas about the decay step -/

lemma max_zero_sub_max_zero (x d : ℚ) (hd : 0 ≤ d) :
    max 0 (max 0 x - d) = max 0 (x - d) := by
  rcases le_or_lt 0 x with h | h
  · rw [max_eq_right h]
  · rw [max_eq_left h.le, zero_sub, max_eq_left (neg_nonpos.mpr hd),
      max_eq_left (by linarith)]

lemma min_hundred_add_min_hundred (y d : ℚ) (hd : 0 ≤ d) :
    min 100 (min 100 y + d) = min 100 (y + d) := by
  rcases le_or_lt y 100 with h | h
  · rw [min_eq_right h]
  · rw [min_eq_left h.le, min_eq_left (by linarith), min_eq_left (by linarith)]

lemma decayGo_power (l : List SectorState) (x q : ℚ) :
    (decayGo (max 0 x) q l).1 =
      max 0 (x - 0.02 * (l.countP (fun s => decide (s.structuralIntegrity < 50)) : ℚ)) := by
  induction l generalizing x q with
  | nil => simp [decayGo]
  | cons c rest ih =>
    simp only [decayGo]
    by_cases h1 : c.structuralIntegrity < 50
    · rw [if_pos h1, max_zero_sub_max_zero x 0.02 (by norm_num), ih, List.countP_cons,
        decide_eq_true h1, if_pos rfl]
      congr 1
      push_cast
      ring
    · rw [if_neg h1, ih, List.countP_cons, decide_eq_false h1]
      simp

lemma decayGo_panic (l : List SectorState) (p y : ℚ) :
    (decayGo p (min 100 y) l).2.1 =
      min 100 (y + 0.05 * (l.countP (fun s => decide (0 < s.hazardLevel)) : ℚ)) := by
  induction l generalizing p y with
  | nil => simp [decayGo]
  | cons c rest ih =>
    simp only [decayGo]
    by_cases h2 : (0 : ℚ) < c.hazardLevel
    · rw [if_pos h2, min_hundred_add_min_hundred y 0.05 (by norm_num), ih, List.countP_cons,
        decide_eq_true h2, if_pos rfl]
      congr 1
      push_cast
      ring
    · rw [if_neg h2, ih, List.countP_cons, decide_eq_false h2]
      simp

lemma decayGo_sectors (l : List SectorState) (p q : ℚ) :
    (decayGo p q l).2.2 = l.map (fun s =>
      if 0 < s.hazardLevel then
        { s with structuralIntegrity := max 0 (s.structuralIntegrity - 0.1) }
      else s) := by
  induction l generalizing p q with
  | nil => simp [decayGo]
  | cons c rest ih =>
    simp only [decayGo, List.map_cons]
    rw [ih]

lemma decay_globalPower (s : SystemState) :
    (calculateSystemDecay s).globalPower =
      max 0 (s.globalPower - 0.05
        - 0.02 * (s.sectors.countP (fun sec => decide (sec.structuralIntegrity < 50)) : ℚ)) := by
  simp only [calculateSystemDecay]
  rw [decayGo_power]

lemma decay_globalPanic (s : SystemState) :
    (calculateSystemDecay s).globalPanic =
      min 100 (s.globalPanic + 0.1
        + 0.05 * (s.sectors.countP (fun sec => decide (0 < sec.hazardLevel)) : ℚ)) := by
  simp only [calculateSystemDecay]
  rw [decayGo_panic]

lemma decay_sectors (s : SystemState) :
    (calculateSystemDecay s).sectors = s.sectors.map (fun sec =>
      if 0 < sec.hazardLevel then
        { sec with structuralIntegrity := max 0 (sec.structuralIntegrity - 0.1) }
      else sec) := by
  simp only [calculateSystemDecay]
  rw [decayGo_sectors]

lemma decay_globalNetwork (s : SystemState) :
    (calculateSystemDecay s).globalNetwork = s.globalNetwork := by
  simp [calculateSystemDecay]

/-! ## Claim C10 -/

/-- Claim C10: calculateSystemDecay changes only globalPower, globalPanic and
sector structuralIntegrity: globalNetwork is unchanged, the sector list keeps
its length and, position by position, its ids, names, types, hazardLevels and
activeEventIds. -/
theorem claim_C10 (s : SystemState) :
    (calculateSystemDecay s).globalNetwork = s.globalNetwork
    ∧ (calculateSystemDecay s).sectors.length = s.sectors.length
    ∧ (calculateSystemDecay s).sectors.map (fun sec => sec.id)
        = s.sectors.map (fun sec => sec.id)
    ∧ (calculateSystemDecay s).sectors.map (fun sec => sec.name)
        = s.sectors.map (fun sec => sec.name)
    ∧ (calculateSystemDecay s).sectors.map (fun sec => sec.type)
        = s.sectors.map (fun sec => sec.type)
    ∧ (calculateSystemDecay s).sectors.map (fun sec => sec.hazardLevel)
        = s.sectors.map (fun sec => sec.hazardLevel)
    ∧ (calculateSystemDecay s).sectors.map (fun sec => sec.activeEventId)
        = s.sectors.map (fun sec => sec.activeEventId) := by
  rw [decay_globalNetwork, decay_sectors]
  refine ⟨rfl, by simp, ?_, ?_, ?_, ?_, ?_⟩ <;>
    · rw [List.map_map]
      refine List.map_congr_left (fun a _ => ?_)
      by_cases h : (0 : ℚ) < a.hazardLevel <;> simp [h]

/-! ## Claim C8 -/

/-- Claim C8 (amended: each update is clamped — globalPower and sector
structuralIntegrity are floored at 0 and globalPanic is capped at 100):
on a fully-healthy state one decay step yields globalPower 99.95 and
globalPanic 0.1 with sectors unchanged; in general the step subtracts
0.05 from globalPower plus 0.02 per sector with structuralIntegrity < 50
(floored at 0), adds 0.1 to globalPanic plus 0.05 per sector with
hazardLevel > 0 (capped at 100), and subtracts 0.1 (floored at 0) from the
structuralIntegrity of each sector with hazardLevel > 0. -/
theorem claim_C8 :
    (∀ s : SystemState, s.globalPower = 100 → s.globalPanic = 0 →
      (∀ sec ∈ s.sectors, sec.hazardLevel = 0 ∧ sec.structuralIntegrity = 100) →
      (calculateSystemDecay s).globalPower = 99.95
      ∧ (calculateSystemDecay s).globalPanic = 0.1
      ∧ (calculateSystemDecay s).sectors = s.sectors)
    ∧ (∀ s : SystemState,
      (calculateSystemDecay s).globalPower
        = max 0 (s.globalPower - 0.05
            - 0.02 * (s.sectors.countP (fun sec => decide (sec.structuralIntegrity < 50)) : ℚ))
      ∧ (calculateSystemDecay s).globalPanic
        = min 100 (s.globalPanic + 0.1
            + 0.05 * (s.sectors.countP (fun sec => decide (0 < sec.hazardLevel)) : ℚ))
      ∧ (calculateSystemDecay s).sectors = s.sectors.map (fun sec =>
          if 0 < sec.hazardLevel then
            { sec with structuralIntegrity := max 0 (sec.structuralIntegrity - 0.1) }
          else sec)) := by
  have hgen : ∀ s : SystemState,
      (calculateSystemDecay s).globalPower
        = max 0 (s.globalPower - 0.05
            - 0.02 * (s.sectors.countP (fun sec => decide (sec.structuralIntegrity < 50)) : ℚ))
      ∧ (calculateSystemDecay s).globalPanic
        = min 100 (s.globalPanic + 0.1
            + 0.05 * (s.sectors.countP (fun sec => decide (0 < sec.hazardLevel)) : ℚ))
      ∧ (calculateSystemDecay s).sectors = s.sectors.map (fun sec =>
          if 0 < sec.hazardLevel then
            { sec with structuralIntegrity := max 0 (sec.structuralIntegrity - 0.1) }
          else sec) :=
    fun s => ⟨decay_globalPower s, decay_globalPanic s, decay_sectors s⟩
  refine ⟨fun s hpow hpan hsec => ?_, hgen⟩
  obtain ⟨h1, h2, h3⟩ := hgen s
  have hc1 : s.sectors.countP (fun sec => decide (sec.structuralIntegrity < 50)) = 0 := by
    rw [List.countP_eq_zero]
    intro a ha
    simp only [decide_eq_true_eq]
    rw [(hsec a ha).2]
    norm_num
  have hc2 : s.sectors.countP (fun sec => decide (0 < sec.hazardLevel)) = 0 := by
    rw [List.countP_eq_zero]
    intro a ha
    simp only [decide_eq_true_eq]
    rw [(hsec a ha).1]
    norm_num
  refine ⟨?_, ?_, ?_⟩
  · rw [h1, hpow, hc1]
    norm_num
  · rw [h2, hpan, hc2]
    norm_num
  · rw [h3]
    have h4 : ∀ a ∈ s.sectors,
        (if 0 < a.hazardLevel then
          { a with structuralIntegrity := max 0 (a.structuralIntegrity - 0.1) }
         else a) = a := by
      intro a ha
      rw [if_neg (by rw [(hsec a ha).1]; norm_num)]
    rw [List.map_congr_left h4, List.map_id']

/-- The claim C8 general formula is false as literally stated: with
globalPower already 0 the decay step does not subtract 0.05 (the result is
floored at 0, not -0.05). -/
theorem claim_C8_counterexample :
    (calculateSystemDecay
      { globalPanic := 0, globalPower := 0, globalNetwork := 100,
        sectors := [{ id := "s1", name := "Core Reactor", type := "power",
                      structuralIntegrity := 100, hazardLevel := 0,
                      activeEventId := none }] }).globalPower
      ≠ (0 : ℚ) - 0.05 := by
  rw [decay_globalPower]
  have h : List.countP (fun sec => decide (sec.structuralIntegrity < 50))
      [({ id := "s1", name := "Core Reactor", type := "power",
          structuralIntegrity := 100, hazardLevel := 0,
          activeEventId := none } : SectorState)] = 0 := by decide
  simp only [h]
  rw [max_eq_left (by norm_num)]
  norm_num

/-- Witness for claim C8 at the spec scenario: a fully-healthy one-sector
state decays to globalPower 99.95 and globalPanic 0.1 with the sector
unchanged. -/
theorem claim_C8_witness :
    (calculateSystemDecay
      { globalPanic := 0, globalPower := 100, globalNetwork := 100,
        sectors := [{ id := "s1", name := "Core Reactor", type := "power",
                      structuralIntegrity := 100, hazardLevel := 0,
                      activeEventId := none }] }).globalPower = 99.95
    ∧ (calculateSystemDecay
      { globalPanic := 0, globalPower := 100, globalNetwork := 100,
        sectors := [{ id := "s1", name := "Core Reactor", type := "power",
                      structuralIntegrity := 100, hazardLevel := 0,
                      activeEventId := none }] }).globalPanic = 0.1
    ∧ (calculateSystemDecay
      { globalPanic := 0, globalPower := 100, globalNetwork := 100,
        sectors := [{ id := "s1", name := "Core Reactor", type := "power",
                      structuralIntegrity := 100, hazardLevel := 0,
                      activeEventId := none }] }).sectors
        = [{ id := "s1", name := "Core Reactor", type := "power",
             structuralIntegrity := 100, hazardLevel := 0,
             activeEventId := none }] :=
  claim_C8.1
    { globalPanic := 0, globalPower := 100, globalNetwork := 100,
      sectors := [{ id := "s1", name := "Core Reactor", type := "power",
                    structuralIntegrity := 100, hazardLevel := 0,
                    activeEventId := none }] }
    rfl rfl (by decide)

/-! ## Claim C3 -/

/-- Claim C3 (amended: the riot reason string uses an ASCII hyphen,
"COLONY RIOTS - COMMAND LOST", not an em dash): checkGameOver applies its
three failure tests in order with first-match-wins reasons — at least 3
destroyed sectors reports MULTIPLE SECTOR COLLAPSE even if the other
conditions also hold, otherwise non-positive power reports TOTAL BLACKOUT,
otherwise panic at 100 or more reports the riot reason, otherwise the game
is not over. -/
theorem claim_C3 (s : SystemState) :
    (3 ≤ destroyedSectors s →
      checkGameOver s =
        { isOver := true, reason := some "MULTIPLE SECTOR COLLAPSE", isVictory := false })
    ∧ (destroyedSectors s < 3 → s.globalPower ≤ 0 →
      checkGameOver s =
        { isOver := true, reason := some "TOTAL BLACKOUT", isVictory := false })
    ∧ (destroyedSectors s < 3 → 0 < s.globalPower → 100 ≤ s.globalPanic →
      checkGameOver s =
        { isOver := true, reason := some "COLONY RIOTS - COMMAND LOST", isVictory := false })
    ∧ (destroyedSectors s < 3 → 0 < s.globalPower → s.globalPanic < 100 →
      checkGameOver s =
        { isOver := false, reason := none, isVictory := false }) := by
  refine ⟨fun h1 => ?_, fun h1 h2 => ?_, fun h1 h2 h3 => ?_, fun h1 h2 h3 => ?_⟩
  · rw [checkGameOver, if_pos h1]
  · rw [checkGameOver, if_neg (by omega), if_pos h2]
  · rw [checkGameOver, if_neg (by omega), if_neg (not_le.mpr h2), if_pos h3]
  · rw [checkGameOver, if_neg (by omega), if_neg (not_le.mpr h2),
      if_neg (not_le.mpr h3)]

/-- The claim C3 reason string for the riot condition is false as quoted:
the code reports "COLONY RIOTS - COMMAND LOST" (ASCII hyphen), which differs
from the claimed "COLONY RIOTS — COMMAND LOST" (em dash). -/
theorem claim_C3_counterexample :
    (checkGameOver
      { globalPanic := 100, globalPower := 50, globalNetwork := 100,
        sectors := [{ id := "s1", name := "Core Reactor", type := "power",
                      structuralIntegrity := 100, hazardLevel := 0,
                      activeEventId := none }] }).reason
        = some "COLONY RIOTS - COMMAND LOST"
    ∧ (some "COLONY RIOTS - COMMAND LOST" : Option String)
        ≠ some "COLONY RIOTS — COMMAND LOST" := by
  constructor
  · decide
  · decide

/-- Witness for claim C3 at the spec precedence scenario: three sectors at
integrity 0 together with power 0 report MULTIPLE SECTOR COLLAPSE, not
TOTAL BLACKOUT. -/
theorem claim_C3_witness :
    3 ≤ destroyedSectors
      { globalPanic := 0, globalPower := 0, globalNetwork := 100,
        sectors := [{ id := "s1", name := "Core Reactor", type := "power",
                      structuralIntegrity := 0, hazardLevel := 0, activeEventId := none },
                    { id := "s2", name := "Med-Block Alpha", type := "medical",
                      structuralIntegrity := 0, hazardLevel := 0, activeEventId := none },
                    { id := "s3", name := "Comms Spire", type := "network",
                      structuralIntegrity := 0, hazardLevel := 0, activeEventId := none }] }
    ∧ checkGameOver
      { globalPanic := 0, globalPower := 0, globalNetwork := 100,
        sectors := [{ id := "s1", name := "Core Reactor", type := "power",
                      structuralIntegrity := 0, hazardLevel := 0, activeEventId := none },
                    { id := "s2", name := "Med-Block Alpha", type := "medical",
                      structuralIntegrity := 0, hazardLevel := 0, activeEventId := none },
                    { id := "s3", name := "Comms Spire", type := "network",
                      structuralIntegrity := 0, hazardLevel := 0, activeEventId := none }] }
        = { isOver := true, reason := some "MULTIPLE SECTOR COLLAPSE", isVictory := false } :=
  ⟨by decide,
   (claim_C3
     { globalPanic := 0, globalPower := 0, globalNetwork := 100,
       sectors := [{ id := "s1", name := "Core Reactor", type := "power",
                     structuralIntegrity := 0, hazardLevel := 0, activeEventId := none },
                   { id := "s2", name := "Med-Block Alpha", type := "medical",
                     structuralIntegrity := 0, hazardLevel := 0, activeEventId := none },
                   { id := "s3", name := "Comms Spire", type := "network",
                     structuralIntegrity := 0, hazardLevel := 0, activeEventId := none }] }).1
     (by decide)⟩

/-! ## Claim C1 -/

/-- The claim C1 invariant is false as stated: applyEventImpact applies no
clamps, so a single event-impact operation on a valid state pushes
globalPanic above 100, the target sector's structuralIntegrity below 0 and
its hazardLevel above 100. -/
theorem claim_C1_counterexample :
    InRange { globalPanic := 98, globalPower := 50, globalNetwork := 100,
              sectors := [{ id := "s1", name := "Core Reactor", type := "power",
                            structuralIntegrity := 10, hazardLevel := 80,
                            activeEventId := none }] }
    ∧ ¬ InRange (applyEventImpact
        { globalPanic := 98, globalPower := 50, globalNetwork := 100,
          sectors := [{ id := "s1", name := "Core Reactor", type := "power",
                        structuralIntegrity := 10, hazardLevel := 80,
                        activeEventId := none }] }
        { id := "e1", title := "Reactor Leak", description := "Radiation spike detected.",
          severity := Severity.CRITICAL, targetSectorId := "s1", timestamp := 0 }) := by
  constructor
  · decide
  · rintro ⟨-, hpan, -⟩
    rw [applyEventImpact, if_pos (by decide)] at hpan
    simp only at hpan
    norm_num at hpan

/-- Claim C1 (amended: the [0,100] invariant holds for decay steps, and
applyAction always returns globalPanic and globalPower inside [0,100]; it
does not hold for applyEventImpact, which is unclamped, nor for sector
fields under every action — log_reroute adds 5 integrity without a cap):
calculateSystemDecay maps in-range states to in-range states, and
applyAction's final clamp forces globalPanic and globalPower into [0,100]
on every input. -/
theorem claim_C1 :
    (∀ s : SystemState, InRange s → InRange (calculateSystemDecay s))
    ∧ (∀ (s : SystemState) (a : Action) (t : Option String),
        0 ≤ (applyAction s a t).globalPanic ∧ (applyAction s a t).globalPanic ≤ 100
        ∧ 0 ≤ (applyAction s a t).globalPower ∧ (applyAction s a t).globalPower ≤ 100) := by
  constructor
  · intro s hs
    obtain ⟨hp0, hp1, hw0, hw1, hn0, hn1, hsec⟩ := hs
    have hcast1 : (0:ℚ) ≤ 0.02 *
        (s.sectors.countP (fun sec => decide (sec.structuralIntegrity < 50)) : ℚ) :=
      mul_nonneg (by norm_num) (Nat.cast_nonneg _)
    have hcast2 : (0:ℚ) ≤ 0.05 *
        (s.sectors.countP (fun sec => decide (0 < sec.hazardLevel)) : ℚ) :=
      mul_nonneg (by norm_num) (Nat.cast_nonneg _)
    refine ⟨?_, ?_, ?_, ?_, ?_, ?_, ?_⟩
    · rw [decay_globalPanic]
      exact le_min (by norm_num) (by linarith)
    · rw [decay_globalPanic]
      exact min_le_left _ _
    · rw [decay_globalPower]
      exact le_max_left _ _
    · rw [decay_globalPower]
      exact max_le (by norm_num) (by linarith)
    · rw [decay_globalNetwork]
      exact hn0
    · rw [decay_globalNetwork]
      exact hn1
    · rw [decay_sectors]
      intro sec hmem
      rw [List.mem_map] at hmem
      obtain ⟨a, ha, rfl⟩ := hmem
      obtain ⟨hi0, hi1, hh0, hh1⟩ := hsec a ha
      by_cases hz : (0:ℚ) < a.hazardLevel
      · rw [if_pos hz]
        exact ⟨le_max_left _ _, max_le (by norm_num) (by linarith), hh0, hh1⟩
      · rw [if_neg hz]
        exact ⟨hi0, hi1, hh0, hh1⟩
  · intro s a t
    obtain ⟨x, hx⟩ : ∃ x, applyAction s a t = clampPct x := ⟨_, rfl⟩
    rw [hx]
    exact ⟨le_max_left _ _, max_le (by norm_num) (min_le_left _ _),
      le_max_left _ _, max_le (by norm_num) (min_le_left _ _)⟩

/-- Witness for claim C1: a concrete in-range state stays in range after one
decay step, and a concrete applyAction call keeps panic and power in
[0, 100]. -/
theorem claim_C1_witness :
    InRange { globalPanic := 40, globalPower := 60, globalNetwork := 100,
              sectors := [{ id := "s1", name := "Core Reactor", type := "power",
                            structuralIntegrity := 30, hazardLevel := 20,
                            activeEventId := none }] }
    ∧ InRange (calculateSystemDecay
        { globalPanic := 40, globalPower := 60, globalNetwork := 100,
          sectors := [{ id := "s1", name := "Core Reactor", type := "power",
                        structuralIntegrity := 30, hazardLevel := 20,
                        activeEventId := none }] }) :=
  ⟨by decide, claim_C1.1
    { globalPanic := 40, globalPower := 60, globalNetwork := 100,
      sectors := [{ id := "s1", name := "Core Reactor", type := "power",
                    structuralIntegrity := 30, hazardLevel := 20,
                    activeEventId := none }] } (by decide)⟩

/-! ## Claim C2 -/

/-- The claim C2 forward-only phase order is false as stated: startGame has
no LOBBY precondition, so calling it on a GAME_OVER session reports success
and moves the phase back to PLAYING. -/
theorem claim_C2_counterexample :
    (startGame 0 (some
      { session := { phase := GamePhase.GAME_OVER, round := 1, timeRemaining := 0,
                     system := INITIAL_SYSTEM_STATE, events := [], lobbyCode := "ABCD",
                     lastTick := 0 },
        players := [{ id := "h1", name := "HOST", role := some RoleType.COMMANDER,
                      isHost := true, isBot := false }],
        lastUpdated := 0 })).1 = true
    ∧ ((startGame 0 (some
      { session := { phase := GamePhase.GAME_OVER, round := 1, timeRemaining := 0,
                     system := INITIAL_SYSTEM_STATE, events := [], lobbyCode := "ABCD",
                     lastTick := 0 },
        players := [{ id := "h1", name := "HOST", role := some RoleType.COMMANDER,
                      isHost := true, isBot := false }],
        lastUpdated := 0 })).2.map (fun d => d.session.phase)) = some GamePhase.PLAYING :=
  ⟨rfl, rfl⟩

/-- Claim C2 (amended: startGame does not require phase == LOBBY — on any
existing room it reports success and unconditionally sets the phase to
PLAYING, stamping lastTick and re-running role assignment, so a session in
GAME_OVER or VICTORY is taken back to PLAYING and the phase ordering is not
forward-only). -/
theorem claim_C2 (now : Int) (d : Store) :
    (startGame now (some d)).1 = true
    ∧ ((startGame now (some d)).2.map (fun x => x.session.phase))
        = some GamePhase.PLAYING
    ∧ ((startGame now (some d)).2.map (fun x => x.session.lastTick)) = some now :=
  ⟨rfl, rfl, rfl⟩

/-! ## Claim C4 -/

lemma applyEffects_global (a : Action) (t : Option String) (s : SystemState)
    (h : a.targetType = TargetType.GLOBAL) :
    applyEffects a t s = applyGlobalEffects a s := by
  obtain ⟨i, lb, ds, cd, rl, tt, c⟩ := a
  subst h
  cases t <;> rfl

lemma applyEffects_sector_none (a : Action) (s : SystemState)
    (h : a.targetType = TargetType.SECTOR) :
    applyEffects a none s = s := by
  obtain ⟨i, lb, ds, cd, rl, tt, c⟩ := a
  subst h
  rfl

lemma applyEffects_sector_some (a : Action) (tid : String) (s : SystemState)
    (h : a.targetType = TargetType.SECTOR) (hne : tid ≠ "") :
    applyEffects a (some tid) s = applySectorEffects a tid s := by
  obtain ⟨i, lb, ds, cd, rl, tt, c⟩ := a
  subst h
  show (if tid = "" then s else applySectorEffects _ tid s) = _
  rw [if_neg hne]

lemma applyEffects_sector_empty (a : Action) (s : SystemState)
    (h : a.targetType = TargetType.SECTOR) :
    applyEffects a (some "") s = s := by
  obtain ⟨i, lb, ds, cd, rl, tt, c⟩ := a
  subst h
  rfl

lemma payCost_none (s : SystemState) (a : Action) (h : a.cost = none) :
    payCost s a = s := by
  obtain ⟨i, lb, ds, cd, rl, tt, c⟩ := a
  subst h
  rfl

lemma actions_sector_cost_none :
    ∀ a ∈ ACTIONS, a.targetType = TargetType.SECTOR → a.cost = none := by
  decide

lemma applySectorEffects_no_match (a : Action) (tid : String) (s : SystemState)
    (hno : ∀ sec ∈ s.sectors, sec.id ≠ tid) :
    applySectorEffects a tid s = s := by
  have hany : (s.sectors.any (fun sec => sec.id == tid)) = false := by
    rw [List.any_eq_false]
    intro sec hsec
    simp only [beq_iff_eq]
    exact hno sec hsec
  unfold applySectorEffects
  rw [hany]
  simp

/-- The claim C4 rejection is false as stated: MockBackend.performAction
accepts a SECTOR action submitted without a target sector (it returns true,
reporting success, instead of rejecting the request). -/
theorem claim_C4_counterexample :
    (performAction (some
      { session := { phase := GamePhase.PLAYING, round := 1, timeRemaining := 90,
                     system := INITIAL_SYSTEM_STATE, events := [], lobbyCode := "ABCD",
                     lastTick := 0 },
        players := [{ id := "h1", name := "HOST", role := some RoleType.COMMANDER,
                      isHost := true, isBot := false }],
        lastUpdated := 0 })
      "eng_reinforce" none).1 = true := rfl

/-- Claim C4 (amended: a SECTOR action submitted without a resolved target
is not rejected — the backend accepts it and reports success; the engine
skips the sector effect, and since no SECTOR action in the table carries a
cost the state is unchanged apart from the final panic/power clamp; target
validation exists only in the UI). -/
theorem claim_C4 :
    (∀ (s : SystemState) (a : Action), a ∈ ACTIONS →
      a.targetType = TargetType.SECTOR →
      applyAction s a none = clampPct s)
    ∧ (∀ (s : SystemState) (a : Action) (tid : String), a ∈ ACTIONS →
      a.targetType = TargetType.SECTOR → (∀ sec ∈ s.sectors, sec.id ≠ tid) →
      applyAction s a (some tid) = clampPct s)
    ∧ (∀ (d : Store) (aid : String) (t : Option String) (a : Action),
      d.session.phase = GamePhase.PLAYING → findAction aid = some a →
      (performAction (some d) aid t).1 = true) := by
  refine ⟨fun s a ha htt => ?_, fun s a tid ha htt hno => ?_, fun d aid t a hph hfind => ?_⟩
  · have hcost := actions_sector_cost_none a ha htt
    unfold applyAction
    rw [payCost_none s a hcost, applyEffects_sector_none a s htt]
  · have hcost := actions_sector_cost_none a ha htt
    unfold applyAction
    rw [payCost_none s a hcost]
    by_cases he : tid = ""
    · subst he
      rw [applyEffects_sector_empty a s htt]
    · rw [applyEffects_sector_some a tid s htt he,
        applySectorEffects_no_match a tid s hno]
  · simp [performAction, hph, hfind]

/-- Witness for claim C4: the eng_reinforce SECTOR action without a target
leaves a concrete state unchanged up to the clamp, and a concrete PLAYING
room accepts the untargeted request. -/
theorem claim_C4_witness :
    applyAction
      { globalPanic := 20, globalPower := 80, globalNetwork := 100,
        sectors := [{ id := "s1", name := "Core Reactor", type := "power",
                      structuralIntegrity := 40, hazardLevel := 10,
                      activeEventId := none }] }
      { id := "eng_reinforce", label := "Reinforce Sector",
        description := "Repairs Structure in damaged sectors.",
        cooldown := 10, role := RoleType.ENGINEER, targetType := TargetType.SECTOR,
        cost := none } none
      = clampPct
        { globalPanic := 20, globalPower := 80, globalNetwork := 100,
          sectors := [{ id := "s1", name := "Core Reactor", type := "power",
                        structuralIntegrity := 40, hazardLevel := 10,
                        activeEventId := none }] }
    ∧ (performAction (some
        { session := { phase := GamePhase.PLAYING, round := 1, timeRemaining := 90,
                       system := INITIAL_SYSTEM_STATE, events := [], lobbyCode := "ABCD",
                       lastTick := 0 },
          players := [], lastUpdated := 0 })
        "eng_reinforce" none).1 = true :=
  ⟨claim_C4.1
    { globalPanic := 20, globalPower := 80, globalNetwork := 100,
      sectors := [{ id := "s1", name := "Core Reactor", type := "power",
                    structuralIntegrity := 40, hazardLevel := 10,
                    activeEventId := none }] }
    { id := "eng_reinforce", label := "Reinforce Sector",
      description := "Repairs Structure in damaged sectors.",
      cooldown := 10, role := RoleType.ENGINEER, targetType := TargetType.SECTOR,
      cost := none } (by decide) rfl,
   claim_C4.2.2
    { session := { phase := GamePhase.PLAYING, round := 1, timeRemaining := 90,
                   system := INITIAL_SYSTEM_STATE, events := [], lobbyCode := "ABCD",
                   lastTick := 0 },
      players := [], lastUpdated := 0 }
    "eng_reinforce" none
    { id := "eng_reinforce", label := "Reinforce Sector",
      description := "Repairs Structure in damaged sectors.",
      cooldown := 10, role := RoleType.ENGINEER, targetType := TargetType.SECTOR,
      cost := none } rfl (by decide)⟩

/-! ## Claim C6 -/

lemma updateFirst_congr (pred : SectorState → Bool) (f : SectorState → SectorState)
    (h : ∀ x, f x = x) (l : List SectorState) : updateFirst pred f l = l := by
  induction l with
  | nil => rfl
  | cons s rest ih =>
      by_cases hp : pred s = true <;> simp [updateFirst, hp, h s, ih]

lemma payCost_eq (s : SystemState) (a : Action) :
    payCost s a = { s with globalPower := s.globalPower - costAmount a } := by
  obtain ⟨i, lb, ds, cd, rl, tt, c⟩ := a
  cases c with
  | none => simp [payCost, costAmount]
  | some cc =>
      by_cases hr : cc.resource = "globalPower"
      · simp [payCost, costAmount, hr]
      · simp [payCost, costAmount, hr]

/-- The claim C6 cost rule is false as stated: an unknown action whose cost
names a resource other than globalPower (here globalNetwork) has nothing
deducted — globalNetwork stays at 100 rather than dropping to 90. -/
theorem claim_C6_counterexample :
    (applyAction
      { globalPanic := 0, globalPower := 100, globalNetwork := 100, sectors := [] }
      { id := "vent_atmosphere", label := "Vent", description := "Vent the atmosphere.",
        cooldown := 5, role := RoleType.COMMANDER, targetType := TargetType.GLOBAL,
        cost := some { resource := "globalNetwork", amount := 10 } } none).globalNetwork
      = 100
    ∧ (100 : ℚ) ≠ 100 - 10 := by
  constructor
  · rfl
  · norm_num

/-- Claim C6 (amended: the cost is deducted only when it names the resource
globalPower — costs naming any other resource are silently ignored): for an
action whose id is in none of the effect tables, applyAction is a silent
no-op aside from the globalPower cost deduction and the final panic/power
clamp, never an error. -/
theorem claim_C6 (s : SystemState) (a : Action) (t : Option String)
    (hid : ¬ (a.id ∈ effectIds)) :
    applyAction s a t = clampPct { s with globalPower := s.globalPower - costAmount a } := by
  simp only [effectIds, List.mem_cons, List.not_mem_nil, or_false, not_or] at hid
  obtain ⟨e1, e2, e3, e4, e5, e6, e7, e8, e9, e10, e11⟩ := hid
  have hglob : ∀ X, applyGlobalEffects a X = X := by
    intro X
    simp [applyGlobalEffects, e1, e2, e3, e4, e5, e6]
  have hse : ∀ x, sectorEffect a x = x := by
    intro x
    simp [sectorEffect, e7, e8, e9, e11]
  have hdelta : sectorPanicDelta a = 0 := by
    simp [sectorPanicDelta, e9, e10]
  have hsecs : ∀ tid X, applySectorEffects a tid X = X := by
    intro tid X
    unfold applySectorEffects
    by_cases hany : (X.sectors.any (fun sec => sec.id == tid)) = true
    · rw [if_pos hany, updateFirst_congr _ _ hse, hdelta]
      simp
    · rw [if_neg hany]
  have happ : applyAction s a t = clampPct (payCost s a) := by
    unfold applyAction
    cases htt : a.targetType with
    | GLOBAL =>
        rw [applyEffects_global a t _ htt, hglob]
    | SECTOR =>
        cases t with
        | none => rw [applyEffects_sector_none a _ htt]
        | some tid =>
            by_cases he : tid = ""
            · subst he
              rw [applyEffects_sector_empty a _ htt]
            · rw [applyEffects_sector_some a tid _ htt he, hsecs]
  rw [happ, payCost_eq]

/-- Witness for claim C6: sec_checkpoint is a real repository action whose
id appears in no effect table; applying it is a no-op up to the clamp (it
has no cost). -/
theorem claim_C6_witness :
    ¬ (("sec_checkpoint" : String) ∈ effectIds)
    ∧ applyAction
        { globalPanic := 30, globalPower := 70, globalNetwork := 100,
          sectors := [{ id := "s1", name := "Core Reactor", type := "power",
                        structuralIntegrity := 50, hazardLevel := 5,
                        activeEventId := none }] }
        { id := "sec_checkpoint", label := "Secure Checkpoint",
          description := "Prevents events from spreading.",
          cooldown := 20, role := RoleType.SECURITY, targetType := TargetType.SECTOR,
          cost := none } (some "s1")
      = clampPct
        { globalPanic := 30, globalPower := 70, globalNetwork := 100,
          sectors := [{ id := "s1", name := "Core Reactor", type := "power",
                        structuralIntegrity := 50, hazardLevel := 5,
                        activeEventId := none }] } := by
  constructor
  · decide
  · have h := claim_C6
      { globalPanic := 30, globalPower := 70, globalNetwork := 100,
        sectors := [{ id := "s1", name := "Core Reactor", type := "power",
                      structuralIntegrity := 50, hazardLevel := 5,
                      activeEventId := none }] }
      { id := "sec_checkpoint", label := "Secure Checkpoint",
        description := "Prevents events from spreading.",
        cooldown := 20, role := RoleType.SECURITY, targetType := TargetType.SECTOR,
        cost := none } (some "s1") (by decide)
    rw [h]
    simp [costAmount]

/-! ## Claim C9 -/

lemma assignGo_roles_ne_none (l : List Player) :
    ∀ (taken : List RoleType), ∀ q ∈ assignGo taken l, q.role ≠ none := by
  induction l with
  | nil =>
      intro taken q hq
      simp [assignGo] at hq
  | cons p rest ih =>
      intro taken q hq
      cases hr : p.role with
      | some r =>
          rw [assignGo, hr] at hq
          rcases List.mem_cons.mp hq with rfl | hq'
          · simp [hr]
          · exact ih taken q hq'
      | none =>
          rw [assignGo, hr] at hq
          rcases List.mem_cons.mp hq with rfl | hq'
          · simp
          · exact ih _ q hq'

lemma assignGo_all_some (l : List Player) (taken : List RoleType)
    (h : ∀ p ∈ l, p.role ≠ none) : assignGo taken l = l := by
  induction l generalizing taken with
  | nil => rfl
  | cons p rest ih =>
      cases hr : p.role with
      | none => exact absurd hr (h p (List.mem_cons_self p rest))
      | some r =>
          rw [assignGo, hr]
          rw [ih taken (fun q hq => h q (List.mem_cons_of_mem p hq))]

lemma autoAssignRoles_all_some (players : List Player)
    (h : ∀ p ∈ players, p.role ≠ none) : autoAssignRoles players = players :=
  assignGo_all_some players (initialTaken players) h

lemma assignGo_forall2 (l : List Player) :
    ∀ taken : List RoleType,
    List.Forall₂ (fun p q => q.id = p.id ∧ q.name = p.name
      ∧ (∀ r, p.role = some r → q.role = some r) ∧ q.role ≠ none)
      l (assignGo taken l) := by
  induction l with
  | nil =>
      intro taken
      exact List.Forall₂.nil
  | cons p rest ih =>
      intro taken
      cases hr : p.role with
      | some r =>
          rw [assignGo, hr]
          exact List.Forall₂.cons
            ⟨rfl, rfl, fun r' hr' => hr', by simp [hr]⟩ (ih taken)
      | none =>
          rw [assignGo, hr]
          refine List.Forall₂.cons ⟨rfl, rfl, fun r' hr' => ?_, by simp⟩ (ih _)
          rw [hr] at hr'
          cases hr'

lemma mem_initialTaken {r : RoleType} {l : List Player} :
    r ∈ initialTaken l ↔ ∃ q ∈ l, q.role = some r := by
  unfold initialTaken
  exact List.mem_filterMap

lemma pickRole_congr (t1 t2 : List RoleType) (h : ∀ r, r ∈ t1 ↔ r ∈ t2) :
    pickRole t1 = pickRole t2 := by
  have hc : (fun r : RoleType => !t1.contains r) = (fun r => !t2.contains r) := by
    funext r
    have hcr : t1.contains r = t2.contains r :=
      Bool.eq_iff_iff.mpr (Iff.trans List.elem_iff ((h r).trans List.elem_iff.symm))
    rw [hcr]
  unfold pickRole
  rw [hc]

/-- The code's single accumulated taken-set (initial roles of the whole
roster, extended by each new assignment) stays membership-equal to the
spec's recomputed held-role set, so the threaded `assignGo` agrees with the
roster-recomputing `specAssignGo` at every position. -/
lemma assignGo_eq_specAssignGo (pending : List Player) :
    ∀ (processed : List Player) (taken : List RoleType),
    (∀ r, r ∈ taken ↔ r ∈ initialTaken (processed ++ pending)) →
    assignGo taken pending = specAssignGo processed pending := by
  induction pending with
  | nil =>
      intro processed taken h
      rfl
  | cons p rest ih =>
      intro processed taken h
      cases hr : p.role with
      | some r0 =>
          rw [assignGo, specAssignGo, hr]
          refine congrArg (List.cons p) (ih (processed ++ [p]) taken ?_)
          intro r
          refine (h r).trans ?_
          rw [List.append_cons processed p rest]
      | none =>
          have hpick : pickRole taken
              = pickRole (initialTaken (processed ++ p :: rest)) := by
            refine pickRole_congr taken _ ?_
            exact h
          rw [assignGo, specAssignGo, hr]
          simp only [hpick]
          refine congrArg _ (ih _ _ ?_)
          intro r
          rw [← List.append_cons processed _ rest]
          constructor
          · intro hin
            rcases List.mem_cons.mp hin with rfl | hin'
            · exact mem_initialTaken.mpr
                ⟨{ p with role := some (pickRole (initialTaken (processed ++ p :: rest))) },
                 by simp, rfl⟩
            · obtain ⟨q, hq, hqr⟩ := mem_initialTaken.mp ((h r).mp hin')
              rcases List.mem_append.mp hq with hq1 | hq2
              · exact mem_initialTaken.mpr ⟨q, by simp [hq1], hqr⟩
              · rcases List.mem_cons.mp hq2 with rfl | hq3
                · rw [hr] at hqr
                  cases hqr
                · exact mem_initialTaken.mpr ⟨q, by simp [hq3], hqr⟩
          · intro hin
            obtain ⟨q, hq, hqr⟩ := mem_initialTaken.mp hin
            rcases List.mem_append.mp hq with hq1 | hq2
            · exact List.mem_cons.mpr (Or.inr ((h r).mpr
                (mem_initialTaken.mpr ⟨q, by simp [hq1], hqr⟩)))
            · rcases List.mem_cons.mp hq2 with rfl | hq3
              · exact List.mem_cons.mpr (Or.inl (Option.some.inj hqr).symm)
              · exact List.mem_cons.mpr (Or.inr ((h r).mpr
                  (mem_initialTaken.mpr ⟨q, by simp [hq3], hqr⟩)))

/-- The code's role assignment equals, roster by roster, the reference
assignment transcribed from the spec sentence: so every unassigned player,
at any roster position, receives the first ESSENTIAL role not currently
held by any player, else the first unheld SUPPORT role, else Security. -/
lemma autoAssignRoles_eq_specAssignRoles (players : List Player) :
    autoAssignRoles players = specAssignRoles players :=
  assignGo_eq_specAssignGo players [] (initialTaken players) (fun _ => Iff.rfl)

/-- Claim C9: on a roster of five unassigned players, auto-assignment gives
Commander, Engineer, BioSec, Comms to the first four (in roster order) and
Security to the fifth; a roster of an assigned Commander host plus one
unassigned joiner gives the joiner Engineer; in general the assignment
preserves ids, names and already-assigned roles, leaves nobody unassigned,
equals the reference assignment transcribed from the spec sentence (each
unassigned player, at any position, receives pickRole — first unheld
ESSENTIAL, else first unheld SUPPORT, else Security — of the roles
currently held by any player), and a leading unassigned player receives
pickRole of the roster's initially held roles. -/
theorem claim_C9 :
    ((autoAssignRoles
        [{ id := "p1", name := "A", role := none, isHost := true, isBot := false },
         { id := "p2", name := "B", role := none, isHost := false, isBot := false },
         { id := "p3", name := "C", role := none, isHost := false, isBot := false },
         { id := "p4", name := "D", role := none, isHost := false, isBot := false },
         { id := "p5", name := "E", role := none, isHost := false, isBot := false }]).map
        (fun p => p.role)
      = [some RoleType.COMMANDER, some RoleType.ENGINEER, some RoleType.BIO_SEC,
         some RoleType.COMMS, some RoleType.SECURITY])
    ∧ ((autoAssignRoles
        [{ id := "h1", name := "HOST", role := some RoleType.COMMANDER,
           isHost := true, isBot := false },
         { id := "p2", name := "JOINER", role := none,
           isHost := false, isBot := false }]).map (fun p => p.role)
      = [some RoleType.COMMANDER, some RoleType.ENGINEER])
    ∧ (∀ players : List Player,
        List.Forall₂ (fun p q => q.id = p.id ∧ q.name = p.name
          ∧ (∀ r, p.role = some r → q.role = some r) ∧ q.role ≠ none)
          players (autoAssignRoles players))
    ∧ (∀ players : List Player, autoAssignRoles players = specAssignRoles players)
    ∧ (∀ (p : Player) (rest : List Player), p.role = none →
        (autoAssignRoles (p :: rest)).head?
          = some { p with role := some (pickRole (initialTaken (p :: rest))) }) := by
  refine ⟨by decide, by decide, fun players => assignGo_forall2 players _,
    fun players => autoAssignRoles_eq_specAssignRoles players,
    fun p rest hrole => ?_⟩
  rw [autoAssignRoles, assignGo, hrole]
  rfl

/-- Witness for claim C9: a single unassigned host receives
pickRole of the (empty) held-role set, i.e. Commander. -/
theorem claim_C9_witness :
    (autoAssignRoles
        [{ id := "p1", name := "A", role := none, isHost := true, isBot := false }]).head?
      = some
        { id := "p1", name := "A",
          role := some (pickRole (initialTaken [⟨"p1", "A", none, true, false⟩])),
          isHost := true, isBot := false } :=
  claim_C9.2.2.2.2
    { id := "p1", name := "A", role := none, isHost := true, isBot := false } [] rfl

/-! ## Claim C5 -/

lemma updatePlayerName_role_ne_none (pid n : String) (l : List Player)
    (h : ∀ p ∈ l, p.role ≠ none) :
    ∀ p ∈ updatePlayerName pid n l, p.role ≠ none := by
  induction l with
  | nil =>
      intro p hp
      simp [updatePlayerName] at hp
  | cons q rest ih =>
      intro p hp
      by_cases hq : q.id = pid
      · rw [updatePlayerName, if_pos hq] at hp
        rcases List.mem_cons.mp hp with rfl | hp'
        · exact h q (List.mem_cons_self q rest)
        · exact h p (List.mem_cons_of_mem q hp')
      · rw [updatePlayerName, if_neg hq] at hp
        rcases List.mem_cons.mp hp with rfl | hp'
        · exact h p (List.mem_cons_self p rest)
        · exact ih (fun x hx => h x (List.mem_cons_of_mem q hx)) p hp'

/-- Claim C5: a join with a fresh player id outside the LOBBY phase fails
with the game-in-progress error; a fresh join in LOBBY with 8 or more
players fails with the capacity error; a re-join with an id already in the
roster (on a roster whose roles are all assigned, which every roster
produced by the assignment routine is) succeeds and only rewrites that
player's display name; and role auto-assignment indeed leaves nobody
unassigned. -/
theorem claim_C5 :
    (∀ (phase : GamePhase) (players : List Player) (pid n : String),
      (∀ p ∈ players, p.id ≠ pid) → phase ≠ GamePhase.LOBBY →
      handleJoin phase players pid n = Except.error "Game already in progress")
    ∧ (∀ (players : List Player) (pid n : String),
      (∀ p ∈ players, p.id ≠ pid) → 8 ≤ players.length →
      handleJoin GamePhase.LOBBY players pid n = Except.error "Lobby full")
    ∧ (∀ (phase : GamePhase) (players : List Player) (pid n : String),
      (∃ p ∈ players, p.id = pid) → (∀ p ∈ players, p.role ≠ none) →
      handleJoin phase players pid n = Except.ok (updatePlayerName pid n players))
    ∧ (∀ (players : List Player), ∀ q ∈ autoAssignRoles players, q.role ≠ none) := by
  refine ⟨fun phase players pid n hno hph => ?_, fun players pid n hno hlen => ?_,
    fun phase players pid n hex hroles => ?_,
    fun players q hq => assignGo_roles_ne_none players _ q hq⟩
  · have hany : (players.any (fun p => p.id == pid)) = false := by
      rw [List.any_eq_false]
      intro p hp
      simp only [beq_iff_eq]
      exact hno p hp
    rw [handleJoin, hany]
    simp [hph]
  · have hany : (players.any (fun p => p.id == pid)) = false := by
      rw [List.any_eq_false]
      intro p hp
      simp only [beq_iff_eq]
      exact hno p hp
    rw [handleJoin, hany]
    simp [hlen]
  · have hany : (players.any (fun p => p.id == pid)) = true := by
      rw [List.any_eq_true]
      obtain ⟨p, hp, hpe⟩ := hex
      exact ⟨p, hp, by simp [hpe]⟩
    rw [handleJoin, hany]
    simp only [if_pos]
    rw [autoAssignRoles_all_some _ (updatePlayerName_role_ne_none pid n players hroles)]

/-- Witness for claim C5: joining a PLAYING session with a fresh id fails
with the game-in-progress error; joining a full LOBBY fails with the
capacity error; a re-join of the host only rewrites the host's name. -/
theorem claim_C5_witness :
    handleJoin GamePhase.PLAYING
      [{ id := "h1", name := "HOST", role := some RoleType.COMMANDER,
         isHost := true, isBot := false }] "p2" "NEW"
      = Except.error "Game already in progress"
    ∧ handleJoin GamePhase.LOBBY
      [{ id := "h1", name := "A", role := some RoleType.COMMANDER, isHost := true, isBot := false },
       { id := "p2", name := "B", role := some RoleType.ENGINEER, isHost := false, isBot := false },
       { id := "p3", name := "C", role := some RoleType.BIO_SEC, isHost := false, isBot := false },
       { id := "p4", name := "D", role := some RoleType.COMMS, isHost := false, isBot := false },
       { id := "p5", name := "E", role := some RoleType.SECURITY, isHost := false, isBot := false },
       { id := "p6", name := "F", role := some RoleType.LOGISTICS, isHost := false, isBot := false },
       { id := "p7", name := "G", role := some RoleType.SECURITY, isHost := false, isBot := false },
       { id := "p8", name := "H", role := some RoleType.SECURITY, isHost := false, isBot := false }]
      "p9" "NEW"
      = Except.error "Lobby full"
    ∧ handleJoin GamePhase.LOBBY
      [{ id := "h1", name := "HOST", role := some RoleType.COMMANDER,
         isHost := true, isBot := false }] "h1" "RENAMED"
      = Except.ok (updatePlayerName "h1" "RENAMED"
          [{ id := "h1", name := "HOST", role := some RoleType.COMMANDER,
             isHost := true, isBot := false }]) :=
  ⟨claim_C5.1 GamePhase.PLAYING
      [{ id := "h1", name := "HOST", role := some RoleType.COMMANDER,
         isHost := true, isBot := false }] "p2" "NEW" (by decide) (by decide),
   claim_C5.2.1
      [{ id := "h1", name := "A", role := some RoleType.COMMANDER, isHost := true, isBot := false },
       { id := "p2", name := "B", role := some RoleType.ENGINEER, isHost := false, isBot := false },
       { id := "p3", name := "C", role := some RoleType.BIO_SEC, isHost := false, isBot := false },
       { id := "p4", name := "D", role := some RoleType.COMMS, isHost := false, isBot := false },
       { id := "p5", name := "E", role := some RoleType.SECURITY, isHost := false, isBot := false },
       { id := "p6", name := "F", role := some RoleType.LOGISTICS, isHost := false, isBot := false },
       { id := "p7", name := "G", role := some RoleType.SECURITY, isHost := false, isBot := false },
       { id := "p8", name := "H", role := some RoleType.SECURITY, isHost := false, isBot := false }]
      "p9" "NEW" (by decide) (by decide),
   claim_C5.2.2.1 GamePhase.LOBBY
      [{ id := "h1", name := "HOST", role := some RoleType.COMMANDER,
         isHost := true, isBot := false }] "h1" "RENAMED" (by decide) (by decide)⟩

/-! ## Claim C7 -/

/-- The foldl that keeps the current best on ties (strict comparison) picks
the first element attaining the minimum key: the start-plus-list decomposes
as a prefix of strictly larger keys, the chosen element, and a suffix of
keys at least as large.  This is the head of a stable ascending sort. -/
lemma foldl_pick_min (key : SectorState → ℚ) (l : List SectorState) :
    ∀ s : SectorState,
    ∃ l₁ l₂,
      s :: l = l₁ ++ (l.foldl (fun best c => if key c < key best then c else best) s) :: l₂
      ∧ (∀ x ∈ l₁,
          key (l.foldl (fun best c => if key c < key best then c else best) s) < key x)
      ∧ (∀ x ∈ l₂,
          key (l.foldl (fun best c => if key c < key best then c else best) s) ≤ key x) := by
  induction l with
  | nil =>
      intro s
      exact ⟨[], [], rfl, by simp, by simp⟩
  | cons c rest ih =>
      intro s
      simp only [List.foldl_cons]
      by_cases h : key c < key s
      · rw [if_pos h]
        obtain ⟨l₁, l₂, heq, hlt, hle⟩ := ih c
        refine ⟨s :: l₁, l₂, ?_, ?_, hle⟩
        · rw [List.cons_append]
          exact congrArg (List.cons s) heq
        · intro x hx
          rcases List.mem_cons.mp hx with rfl | hx'
          · have hrc : key (rest.foldl
                (fun best c' => if key c' < key best then c' else best) c) ≤ key c := by
              cases l₁ with
              | nil =>
                  rw [List.nil_append] at heq
                  injection heq with h1 h2
                  exact le_of_eq (congrArg key h1.symm)
              | cons b l₁' =>
                  rw [List.cons_append] at heq
                  injection heq with h1 h2
                  have hb := hlt b (List.mem_cons_self b l₁')
                  rw [← h1] at hb
                  exact le_of_lt hb
            exact lt_of_le_of_lt hrc h
          · exact hlt x hx'
      · rw [if_neg h]
        push_neg at h
        obtain ⟨l₁, l₂, heq, hlt, hle⟩ := ih s
        cases l₁ with
        | nil =>
            rw [List.nil_append] at heq
            injection heq with h1 h2
            refine ⟨[], c :: l₂, ?_, by simp, ?_⟩
            · rw [List.nil_append, ← h1, ← h2]
            · intro x hx
              rcases List.mem_cons.mp hx with rfl | hx'
              · rw [← h1]
                exact h
              · exact hle x hx'
        | cons b l₁' =>
            rw [List.cons_append] at heq
            injection heq with h1 h2
            refine ⟨s :: c :: l₁', l₂, ?_, ?_, hle⟩
            · rw [List.cons_append, List.cons_append, ← h2]
            · intro x hx
              rcases List.mem_cons.mp hx with rfl | hx'
              · have hb := hlt b (List.mem_cons_self b l₁')
                rw [← h1] at hb
                exact hb
              · rcases List.mem_cons.mp hx' with rfl | hx''
                · have hb := hlt b (List.mem_cons_self b l₁')
                  rw [← h1] at hb
                  exact lt_of_lt_of_le hb h
                · exact hlt x (List.mem_cons_of_mem b hx'')

/-- The head `sectors.sort((a,b) => a.structuralIntegrity - b.structuralIntegrity)[0]`
of the stable sort is the first sector attaining the minimal structuralIntegrity. -/
lemma lowestIntegrityFirst_spec (sectors : List SectorState) (hne : sectors ≠ []) :
    ∃ r l₁ l₂, lowestIntegrityFirst sectors = some r
      ∧ sectors = l₁ ++ r :: l₂
      ∧ (∀ x ∈ l₁, r.structuralIntegrity < x.structuralIntegrity)
      ∧ (∀ x ∈ l₂, r.structuralIntegrity ≤ x.structuralIntegrity) := by
  cases sectors with
  | nil => exact absurd rfl hne
  | cons s rest =>
      obtain ⟨l₁, l₂, heq, hlt, hle⟩ :=
        foldl_pick_min (fun sec => sec.structuralIntegrity) rest s
      exact ⟨_, l₁, l₂, rfl, heq, hlt, hle⟩

/-- The head `sectors.sort((a,b) => b.hazardLevel - a.hazardLevel)[0]` of the
stable descending sort is the first sector attaining the maximal hazardLevel. -/
lemma highestHazardFirst_spec (sectors : List SectorState) (hne : sectors ≠ []) :
    ∃ r l₁ l₂, highestHazardFirst sectors = some r
      ∧ sectors = l₁ ++ r :: l₂
      ∧ (∀ x ∈ l₁, x.hazardLevel < r.hazardLevel)
      ∧ (∀ x ∈ l₂, x.hazardLevel ≤ r.hazardLevel) := by
  cases sectors with
  | nil => exact absurd rfl hne
  | cons s rest =>
      have hfun : (fun (best c : SectorState) =>
            if c.hazardLevel > best.hazardLevel then c else best)
          = (fun (best c : SectorState) =>
            if (fun sec => -sec.hazardLevel) c < (fun sec => -sec.hazardLevel) best
            then c else best) := by
        funext best c
        exact if_congr neg_lt_neg_iff.symm rfl rfl
      obtain ⟨l₁, l₂, heq, hlt, hle⟩ :=
        foldl_pick_min (fun sec => -sec.hazardLevel) rest s
      refine ⟨_, l₁, l₂, ?_, heq, fun x hx => ?_, fun x hx => ?_⟩
      · show some (rest.foldl
            (fun best c => if c.hazardLevel > best.hazardLevel then c else best) s) = _
        rw [hfun]
      · exact neg_lt_neg_iff.mp (hlt x hx)
      · exact neg_le_neg_iff.mp (hle x hx)

/-- Claim C7: when the host resolves a missing target sector, an Engineer
SECTOR action targets the first sector attaining the lowest
structuralIntegrity, a BioSec SECTOR action targets the first sector
attaining the highest hazardLevel, any other role's SECTOR action targets
the first sector, and a GLOBAL action gets no target; equal-value ties
break by list order (every sector before the chosen one is strictly
worse), never randomly. -/
theorem claim_C7 (a : Action) (sectors : List SectorState) (hne : sectors ≠ []) :
    (a.targetType = TargetType.SECTOR → a.role = RoleType.ENGINEER →
      ∃ r l₁ l₂, resolveTargetSectorId a sectors = some r.id
        ∧ sectors = l₁ ++ r :: l₂
        ∧ (∀ x ∈ l₁, r.structuralIntegrity < x.structuralIntegrity)
        ∧ (∀ x ∈ l₂, r.structuralIntegrity ≤ x.structuralIntegrity))
    ∧ (a.targetType = TargetType.SECTOR → a.role = RoleType.BIO_SEC →
      ∃ r l₁ l₂, resolveTargetSectorId a sectors = some r.id
        ∧ sectors = l₁ ++ r :: l₂
        ∧ (∀ x ∈ l₁, x.hazardLevel < r.hazardLevel)
        ∧ (∀ x ∈ l₂, x.hazardLevel ≤ r.hazardLevel))
    ∧ (a.targetType = TargetType.SECTOR → a.role ≠ RoleType.ENGINEER →
        a.role ≠ RoleType.BIO_SEC →
        resolveTargetSectorId a sectors = sectors.head?.map (fun s => s.id))
    ∧ (a.targetType = TargetType.GLOBAL → resolveTargetSectorId a sectors = none) := by
  refine ⟨fun htt hrole => ?_, fun htt hrole => ?_,
    fun htt hr1 hr2 => ?_, fun htt => ?_⟩
  · obtain ⟨r, l₁, l₂, hres, heq, hlt, hle⟩ := lowestIntegrityFirst_spec sectors hne
    refine ⟨r, l₁, l₂, ?_, heq, hlt, hle⟩
    rw [resolveTargetSectorId, if_pos htt, if_pos hrole, hres]
    rfl
  · obtain ⟨r, l₁, l₂, hres, heq, hlt, hle⟩ := highestHazardFirst_spec sectors hne
    refine ⟨r, l₁, l₂, ?_, heq, hlt, hle⟩
    rw [resolveTargetSectorId, if_pos htt,
      if_neg (by rw [hrole]; exact fun hc => nomatch hc), if_pos hrole, hres]
    rfl
  · rw [resolveTargetSectorId, if_pos htt, if_neg hr1, if_neg hr2]
  · rw [resolveTargetSectorId, if_neg (by rw [htt]; exact fun hc => nomatch hc)]

/-- Witness for claim C7: an Engineer action on three sectors with
integrities 50, 30, 30 resolves to the first of the two tied lowest. -/
theorem claim_C7_witness :
    ∃ r l₁ l₂, resolveTargetSectorId
      { id := "eng_reinforce", label := "Reinforce Sector",
        description := "Repairs Structure in damaged sectors.",
        cooldown := 10, role := RoleType.ENGINEER, targetType := TargetType.SECTOR,
        cost := none }
      [{ id := "s1", name := "A", type := "power",
         structuralIntegrity := 50, hazardLevel := 0, activeEventId := none },
       { id := "s2", name := "B", type := "medical",
         structuralIntegrity := 30, hazardLevel := 5, activeEventId := none },
       { id := "s3", name := "C", type := "network",
         structuralIntegrity := 30, hazardLevel := 7, activeEventId := none }]
      = some r.id
      ∧ [({ id := "s1", name := "A", type := "power",
            structuralIntegrity := 50, hazardLevel := 0, activeEventId := none } : SectorState),
         { id := "s2", name := "B", type := "medical",
           structuralIntegrity := 30, hazardLevel := 5, activeEventId := none },
         { id := "s3", name := "C", type := "network",
           structuralIntegrity := 30, hazardLevel := 7, activeEventId := none }]
        = l₁ ++ r :: l₂
      ∧ (∀ x ∈ l₁, r.structuralIntegrity < x.structuralIntegrity)
      ∧ (∀ x ∈ l₂, r.structuralIntegrity ≤ x.structuralIntegrity) :=
  (claim_C7
    { id := "eng_reinforce", label := "Reinforce Sector",
      description := "Repairs Structure in damaged sectors.",
      cooldown := 10, role := RoleType.ENGINEER, targetType := TargetType.SECTOR,
      cost := none }
    [{ id := "s1", name := "A", type := "power",
       structuralIntegrity := 50, hazardLevel := 0, activeEventId := none },
     { id := "s2", name := "B", type := "medical",
       structuralIntegrity := 30, hazardLevel := 5, activeEventId := none },
     { id := "s3", name := "C", type := "network",
       structuralIntegrity := 30, hazardLevel := 7, activeEventId := none }]
    (List.cons_ne_nil _ _)).1 rfl rfl

end Critical
